import Mathlib

/-!
# Verification of the GoWalking achievement engine

Shallow embedding of the achievement subsystem of `backend/server.py`:
the static achievement catalog (`ACHIEVEMENTS`), the stat aggregation and
award engine (`check_and_award_achievements`), the progress reporter
(`get_achievement_progress`) and the walk-creation flow (`create_walk`).

Modelling conventions:
* Python numeric values (ints and floats) are modelled as `ℚ` (exact
  arithmetic; the coin counter `walk_coins` is an `ℤ`, as in the pydantic
  model `User.walk_coins : int`).
* The Mongo collections `db.users`, `db.walks`, `db.friendships`,
  `db.walk_invitations`, `db.user_achievements` become lists inside a
  `Store`; `find_one({"id": ...})` becomes `List.find?`, a filtered
  `find(...)` becomes `List.filter` (the `.to_list(1000)` result-size cap
  is not modelled), `insert_one` becomes an append.
* Randomised / clock fields (`id = uuid4()`, `earned_at = utcnow()`,
  `created_at`) carry no logical content for the verified properties and
  are omitted from the record structures.
* A raised exception in the achievement step of `create_walk` is modelled
  by parameterising `create_walk` over an `Except`-valued award function:
  the source's `try/except` corresponds to the `match` on that result.
-/

/-- `User` pydantic model (server.py lines 31-37), restricted to the fields
the achievement engine reads: `id`, `walk_coins`, `total_distance_km`. -/
structure UserProfile where
  id : String
  walk_coins : ℤ
  total_distance_km : ℚ
deriving DecidableEq

/-- `Walk` model (lines 43-54), restricted to the fields read by the
aggregator (`user_id`, `city`) plus `distance_km` and the fields written
by `create_walk`. -/
structure WalkRec where
  user_id : String
  route_name : String
  distance_km : ℚ
  duration_minutes : ℤ
  coins_earned : ℤ
  city : String
deriving DecidableEq

/-- `Friendship` model (lines 99-105), participant ids only. -/
structure FriendshipRec where
  user1_id : String
  user2_id : String
deriving DecidableEq

/-- `WalkInvitation` model (lines 107-121), sender id only (the aggregator
counts invitations regardless of status). -/
structure InvitationRec where
  sender_id : String
deriving DecidableEq

/-- `Achievement` definition record (lines 133-142): criteria is a dict
`metric ↦ threshold`, modelled as an association list. -/
structure AchievementDef where
  id : String
  name : String
  description : String
  category : String
  tier : String
  icon : String
  criteria : List (String × ℚ)
  points : ℤ
deriving DecidableEq

/-- `UserAchievement` earned record (lines 144-156); the uuid `id` and the
`earned_at` timestamp are omitted (see module header). -/
structure UserAchievementRec where
  user_id : String
  achievement_id : String
  achievement_name : String
  achievement_description : String
  achievement_icon : String
  achievement_tier : String
  achievement_category : String
  achievement_points : ℤ
  progress : ℚ
  is_new : Bool
deriving DecidableEq

/-- `AchievementProgress` response model (lines 158-170). -/
structure AchievementProgress where
  achievement_id : String
  achievement_name : String
  description : String
  category : String
  tier : String
  icon : String
  points : ℤ
  current_progress : ℚ
  target_value : ℚ
  current_value : ℚ
  progress_percentage : ℚ
  is_completed : Bool
deriving DecidableEq

/-- The document store (`db`), restricted to the collections the
achievement engine touches. -/
structure Store where
  users : List UserProfile
  walks : List WalkRec
  friendships : List FriendshipRec
  walk_invitations : List InvitationRec
  user_achievements : List UserAchievementRec
deriving DecidableEq

/-- `WalkCreate` request model (lines 56-63), fields used by `create_walk`. -/
structure WalkCreate where
  user_id : String
  route_name : String
  distance_km : ℚ
  duration_minutes : ℤ
  city : String
deriving DecidableEq
/-- Catalog entry `first_steps` (ACHIEVEMENTS, server.py lines 317-519). -/
def firstStepsDef : AchievementDef :=
  { id := "first_steps", name := "First Steps", description := "Complete your first walk",
    category := "distance", tier := "bronze", icon := "üë∂",
    criteria := [("walks_completed", 1)], points := 10 }

/-- Catalog entry `kilometer_king` (ACHIEVEMENTS, server.py lines 317-519). -/
def kilometerKingDef : AchievementDef :=
  { id := "kilometer_king", name := "Kilometer King", description := "Walk a total of 10 kilometers",
    category := "distance", tier := "bronze", icon := "üö∂",
    criteria := [("total_distance_km", 10)], points := 25 }

/-- Catalog entry `distance_champion` (ACHIEVEMENTS, server.py lines 317-519). -/
def distanceChampionDef : AchievementDef :=
  { id := "distance_champion", name := "Distance Champion", description := "Walk a total of 50 kilometers",
    category := "distance", tier := "silver", icon := "üèÉ‚Äç‚ôÇÔ∏è",
    criteria := [("total_distance_km", 50)], points := 100 }

/-- Catalog entry `marathon_walker` (ACHIEVEMENTS, server.py lines 317-519). -/
def marathonWalkerDef : AchievementDef :=
  { id := "marathon_walker", name := "Marathon Walker", description := "Walk a total of 100 kilometers",
    category := "distance", tier := "gold", icon := "üèÜ",
    criteria := [("total_distance_km", 100)], points := 250 }

/-- Catalog entry `ultra_walker` (ACHIEVEMENTS, server.py lines 317-519). -/
def ultraWalkerDef : AchievementDef :=
  { id := "ultra_walker", name := "Ultra Walker", description := "Walk a total of 500 kilometers",
    category := "distance", tier := "platinum", icon := "üíé",
    criteria := [("total_distance_km", 500)], points := 1000 }

/-- Catalog entry `city_explorer` (ACHIEVEMENTS, server.py lines 317-519). -/
def cityExplorerDef : AchievementDef :=
  { id := "city_explorer", name := "City Explorer", description := "Walk in 2 different cities",
    category := "explorer", tier := "bronze", icon := "üèôÔ∏è",
    criteria := [("cities_visited", 2)], points := 30 }

/-- Catalog entry `multi_city_walker` (ACHIEVEMENTS, server.py lines 317-519). -/
def multiCityWalkerDef : AchievementDef :=
  { id := "multi_city_walker", name := "Multi-City Walker", description := "Walk in all 3 supported cities",
    category := "explorer", tier := "silver", icon := "üó∫Ô∏è",
    criteria := [("cities_visited", 3)], points := 75 }

/-- Catalog entry `local_expert` (ACHIEVEMENTS, server.py lines 317-519). -/
def localExpertDef : AchievementDef :=
  { id := "local_expert", name := "Local Expert", description := "Complete 20 walks in the same city",
    category := "explorer", tier := "gold", icon := "üß≠",
    criteria := [("walks_in_single_city", 20)], points := 150 }

/-- Catalog entry `friendship_builder` (ACHIEVEMENTS, server.py lines 317-519). -/
def friendshipBuilderDef : AchievementDef :=
  { id := "friendship_builder", name := "Friendship Builder", description := "Add your first friend",
    category := "social", tier := "bronze", icon := "üë•",
    criteria := [("friends_count", 1)], points := 20 }

/-- Catalog entry `social_butterfly` (ACHIEVEMENTS, server.py lines 317-519). -/
def socialButterflyDef : AchievementDef :=
  { id := "social_butterfly", name := "Social Butterfly", description := "Have 5 friends on GoWalking",
    category := "social", tier := "silver", icon := "ü¶ã",
    criteria := [("friends_count", 5)], points := 75 }

/-- Catalog entry `walk_organizer` (ACHIEVEMENTS, server.py lines 317-519). -/
def walkOrganizerDef : AchievementDef :=
  { id := "walk_organizer", name := "Walk Organizer", description := "Send 10 walk invitations",
    category := "social", tier := "gold", icon := "üìù",
    criteria := [("walk_invitations_sent", 10)], points := 100 }

/-- Catalog entry `local_supporter` (ACHIEVEMENTS, server.py lines 317-519). -/
def localSupporterDef : AchievementDef :=
  { id := "local_supporter", name := "Local Supporter", description := "Visit 5 local businesses",
    category := "business", tier := "bronze", icon := "üè™",
    criteria := [("businesses_visited", 5)], points := 30 }

/-- Catalog entry `discount_hunter` (ACHIEVEMENTS, server.py lines 317-519). -/
def discountHunterDef : AchievementDef :=
  { id := "discount_hunter", name := "Discount Hunter", description := "Redeem 3 business offers",
    category := "business", tier := "silver", icon := "üéØ",
    criteria := [("offers_redeemed", 3)], points := 50 }

/-- Catalog entry `consistency_king` (ACHIEVEMENTS, server.py lines 317-519). -/
def consistencyKingDef : AchievementDef :=
  { id := "consistency_king", name := "Consistency King", description := "Walk for 3 consecutive days",
    category := "streak", tier := "bronze", icon := "üî•",
    criteria := [("consecutive_days", 3)], points := 40 }

/-- Catalog entry `weekly_warrior` (ACHIEVEMENTS, server.py lines 317-519). -/
def weeklyWarriorDef : AchievementDef :=
  { id := "weekly_warrior", name := "Weekly Warrior", description := "Walk for 7 consecutive days",
    category := "streak", tier := "silver", icon := "‚ö°",
    criteria := [("consecutive_days", 7)], points := 100 }

/-- Catalog entry `daily_devotee` (ACHIEVEMENTS, server.py lines 317-519). -/
def dailyDevoteeDef : AchievementDef :=
  { id := "daily_devotee", name := "Daily Devotee", description := "Walk for 30 consecutive days",
    category := "streak", tier := "gold", icon := "üèÖ",
    criteria := [("consecutive_days", 30)], points := 300 }

/-- Catalog entry `coin_collector` (ACHIEVEMENTS, server.py lines 317-519). -/
def coinCollectorDef : AchievementDef :=
  { id := "coin_collector", name := "Coin Collector", description := "Earn 100 WalkCoins",
    category := "coins", tier := "bronze", icon := "ü™ô",
    criteria := [("total_coins_earned", 100)], points := 25 }

/-- Catalog entry `treasure_hunter` (ACHIEVEMENTS, server.py lines 317-519). -/
def treasureHunterDef : AchievementDef :=
  { id := "treasure_hunter", name := "Treasure Hunter", description := "Earn 500 WalkCoins",
    category := "coins", tier := "silver", icon := "üí∞",
    criteria := [("total_coins_earned", 500)], points := 100 }

/-- Catalog entry `coin_master` (ACHIEVEMENTS, server.py lines 317-519). -/
def coinMasterDef : AchievementDef :=
  { id := "coin_master", name := "Coin Master", description := "Earn 1000 WalkCoins",
    category := "coins", tier := "gold", icon := "üëë",
    criteria := [("total_coins_earned", 1000)], points := 250 }

/-- The fixed achievement catalog `ACHIEVEMENTS` (server.py lines 317-519). -/
def ACHIEVEMENTS : List AchievementDef :=
  [firstStepsDef, kilometerKingDef, distanceChampionDef, marathonWalkerDef, ultraWalkerDef, cityExplorerDef, multiCityWalkerDef, localExpertDef, friendshipBuilderDef, socialButterflyDef, walkOrganizerDef, localSupporterDef, discountHunterDef, consistencyKingDef, weeklyWarriorDef, dailyDevoteeDef, coinCollectorDef, treasureHunterDef, coinMasterDef]

/-- The user's walks: `db.walks.find({"user_id": user_id})` (line 537). -/
def userWalks (store : Store) (uid : String) : List WalkRec :=
  store.walks.filter (fun w => w.user_id == uid)

/-- The user's friendships:
`db.friendships.find({"$or": [{"user1_id": uid}, {"user2_id": uid}]})`
(lines 538-540). -/
def userFriendships (store : Store) (uid : String) : List FriendshipRec :=
  store.friendships.filter (fun f => f.user1_id == uid || f.user2_id == uid)

/-- The invitations the user sent:
`db.walk_invitations.find({"sender_id": uid})` (line 541). -/
def userInvitationsSent (store : Store) (uid : String) : List InvitationRec :=
  store.walk_invitations.filter (fun i => i.sender_id == uid)

/-- `stats.get(key, 0)`: association-list lookup with default `0`
(lines 580 and 663 use exactly this access). -/
def statsGet (stats : List (String × ℚ)) (key : String) : ℚ :=
  ((stats.find? (fun p => p.1 == key)).map Prod.snd).getD 0

/-- The `stats` dict built by both `check_and_award_achievements`
(lines 544-561) and `get_achievement_progress` (lines 615-631):
`walks_in_single_city` is the max of the per-city walk counts
(`max(city_counts.values()) if city_counts else 0`), where `city_counts`
counts walks per city, i.e. for each distinct city its multiplicity in the
list of the user's walk cities. -/
def computeStats (store : Store) (uid : String) (user : UserProfile) : List (String × ℚ) :=
  let walks := userWalks store uid
  let cities := walks.map (fun w => w.city)
  [("walks_completed", (walks.length : ℚ)),
   ("total_distance_km", user.total_distance_km),
   ("cities_visited", (cities.dedup.length : ℚ)),
   ("friends_count", ((userFriendships store uid).length : ℚ)),
   ("walk_invitations_sent", ((userInvitationsSent store uid).length : ℚ)),
   ("total_coins_earned", (user.walk_coins : ℚ)),
   ("businesses_visited", 0),
   ("offers_redeemed", 0),
   ("consecutive_days", 0),
   ("walks_in_single_city", (((cities.dedup.map (fun c => cities.count c)).foldr max 0 : ℕ) : ℚ))]

/-- Criteria check (lines 578-582): `criteria_met` stays true iff no pair
has `stats.get(key, 0) < value`, i.e. all pairs satisfy
`value ≤ stats.get(key, 0)`. -/
def criteriaMet (stats : List (String × ℚ)) (criteria : List (String × ℚ)) : Bool :=
  criteria.all (fun p => decide (p.2 ≤ statsGet stats p.1))

/-- Achievement ids already earned by the user:
`{ach["achievement_id"] for ach in db.user_achievements.find({"user_id": uid})}`
(lines 564-565). -/
def earnedIds (store : Store) (uid : String) : List String :=
  (store.user_achievements.filter (fun ua => ua.user_id == uid)).map
    (fun ua => ua.achievement_id)

/-- The `UserAchievement(...)` constructed on award (lines 586-595):
denormalized copies of the definition's fields, `progress = 100`,
`is_new = true` (model defaults, lines 154-156). -/
def mkUserAchievement (uid : String) (a : AchievementDef) : UserAchievementRec :=
  { user_id := uid, achievement_id := a.id, achievement_name := a.name,
    achievement_description := a.description, achievement_icon := a.icon,
    achievement_tier := a.tier, achievement_category := a.category,
    achievement_points := a.points, progress := 100, is_new := true }

/-- The per-definition award condition of the evaluation loop
(lines 573-584): not already earned (line 574) and criteria met. -/
def awardPred (store : Store) (uid : String) (user : UserProfile)
    (a : AchievementDef) : Bool :=
  !((earnedIds store uid).contains a.id) &&
    criteriaMet (computeStats store uid user) a.criteria

/-- The records awarded by one evaluation pass (lines 567-598). The source
loop reads the pre-computed `existing_achievement_ids` set and the fixed
`stats` dict on every iteration (neither is updated inside the loop), so
the loop is a filter of the catalog followed by record construction. -/
def newlyEarned (store : Store) (uid : String) (user : UserProfile) : List UserAchievementRec :=
  (ACHIEVEMENTS.filter (awardPred store uid user)).map (mkUserAchievement uid)

/-- `check_and_award_achievements` (lines 529-600): returns the list of
newly created records and the store after the `insert_one` calls; a
missing user returns `[]` with no writes (lines 532-534). -/
def check_and_award_achievements (store : Store) (uid : String) :
    List UserAchievementRec × Store :=
  match store.users.find? (fun u => u.id == uid) with
  | none => ([], store)
  | some user =>
      (newlyEarned store uid user,
       { store with
          user_achievements := store.user_achievements ++ newlyEarned store uid user })

/-- The progress record built for one catalog entry (lines 639-679): a
completed achievement reports `100` with zeroed target/current values
(lines 643-657); otherwise the first criteria key is used
(`list(criteria.keys())[0]`, line 661) and
`progress_percentage = min((current_value / target_value) * 100, 100) if
target_value > 0 else 0` (line 664). The source raises an `IndexError` on
an empty criteria dict; every catalog entry has exactly one criterion, so
the `headD` default is never reached on catalog input. -/
def progressFor (stats : List (String × ℚ)) (completedIds : List String)
    (a : AchievementDef) : AchievementProgress :=
  if completedIds.contains a.id then
    { achievement_id := a.id, achievement_name := a.name, description := a.description,
      category := a.category, tier := a.tier, icon := a.icon, points := a.points,
      current_progress := 100, target_value := 0, current_value := 0,
      progress_percentage := 100, is_completed := true }
  else
    let p := a.criteria.headD ("", 0)
    let target_value := p.2
    let current_value := statsGet stats p.1
    let pct := if target_value > 0 then min (current_value / target_value * 100) 100 else 0
    { achievement_id := a.id, achievement_name := a.name, description := a.description,
      category := a.category, tier := a.tier, icon := a.icon, points := a.points,
      current_progress := pct, target_value := target_value, current_value := current_value,
      progress_percentage := pct, is_completed := false }

/-- `get_achievement_progress` (lines 602-683): one record per catalog
entry in catalog order; a missing user returns `[]` (lines 605-607). The
function performs no writes (it returns only the list, not a store). -/
def get_achievement_progress (store : Store) (uid : String) : List AchievementProgress :=
  match store.users.find? (fun u => u.id == uid) with
  | none => []
  | some user =>
      ACHIEVEMENTS.map (progressFor (computeStats store uid user) (earnedIds store uid))

/-- `calculate_coins` (lines 312-314): `int(distance_km * 2)` truncates
toward zero. -/
def calculate_coins (distance_km : ℚ) : ℤ :=
  if 0 ≤ distance_km * 2 then ⌊distance_km * 2⌋ else ⌈distance_km * 2⌉

/-- The `Walk(**walk_data.dict(), coins_earned=coins_earned)` record
(line 882); `new_achievements` starts as `None` (line 54). -/
structure WalkResponse where
  walk : WalkRec
  new_achievements : Option (List UserAchievementRec)
deriving DecidableEq

/-- `db.users.update_one({"id": uid}, {"$inc": ...})` (lines 886-894):
increments `walk_coins` and `total_distance_km` on the first matching
user document; a no-op when no user matches. -/
def updateUserInc : List UserProfile → String → ℤ → ℚ → List UserProfile
  | [], _, _, _ => []
  | u :: rest, uid, coins, dist =>
      if u.id == uid then
        { u with walk_coins := u.walk_coins + coins,
                 total_distance_km := u.total_distance_km + dist } :: rest
      else
        u :: updateUserInc rest uid coins dist

/-- The `Walk` record built by `create_walk`
(`Walk(**walk_data.dict(), coins_earned=coins_earned)`, line 882). -/
def mkWalkRec (w : WalkCreate) : WalkRec :=
  { user_id := w.user_id, route_name := w.route_name, distance_km := w.distance_km,
    duration_minutes := w.duration_minutes, coins_earned := calculate_coins w.distance_km,
    city := w.city }

/-- `create_walk` (lines 876-904), parameterised over the achievement step
so that a raised exception (`StoreUnavailable` etc.) can be modelled: the
walk insert and the profile `$inc` happen before the `try` block; the
`except` branch keeps those writes, leaves `new_achievements` unset and
still returns the walk. -/
def create_walk (store : Store) (w : WalkCreate)
    (award : Store → String → Except String (List UserAchievementRec × Store)) :
    WalkResponse × Store :=
  let coins_earned := calculate_coins w.distance_km
  let walk : WalkRec := mkWalkRec w
  let store1 : Store := { store with walks := store.walks ++ [walk] }
  let store2 : Store :=
    { store1 with users := updateUserInc store1.users w.user_id coins_earned w.distance_km }
  match award store2 w.user_id with
  | .ok (newAchs, store3) =>
      ({ walk := walk,
         new_achievements := if newAchs.isEmpty then none else some newAchs }, store3)
  | .error _ => ({ walk := walk, new_achievements := none }, store2)

/-! ## Helper lemmas -/

/-- Inserting earned records changes neither the walks/friendships/
invitations nor the user profile, so the snapshot is unchanged. -/
theorem computeStats_update_ua (store : Store) (x : List UserAchievementRec)
    (uid : String) (user : UserProfile) :
    computeStats { store with user_achievements := x } uid user =
      computeStats store uid user := rfl

/-- `earnedIds` after appending records. -/
theorem earnedIds_append (store : Store) (x : List UserAchievementRec) (uid : String) :
    earnedIds { store with user_achievements := store.user_achievements ++ x } uid =
      earnedIds store uid ++
        (x.filter (fun ua => ua.user_id == uid)).map (fun ua => ua.achievement_id) := by
  unfold earnedIds
  simp [List.filter_append]

/-- Every record produced by `newlyEarned` belongs to the evaluated user,
and its `achievement_id` is the id of the defining catalog entry. -/
theorem newlyEarned_filter_ids (store : Store) (uid : String) (user : UserProfile) :
    ((newlyEarned store uid user).filter (fun ua => ua.user_id == uid)).map
        (fun ua => ua.achievement_id) =
      (ACHIEVEMENTS.filter (awardPred store uid user)).map (fun a => a.id) := by
  unfold newlyEarned
  rw [List.filter_map]
  simp [Function.comp, mkUserAchievement]

/-- Membership in the award list, characterised through the catalog. -/
theorem mem_newlyEarned (store : Store) (uid : String) (user : UserProfile)
    (r : UserAchievementRec) :
    r ∈ newlyEarned store uid user ↔
      ∃ a ∈ ACHIEVEMENTS, awardPred store uid user a = true ∧
        r = mkUserAchievement uid a := by
  unfold newlyEarned
  simp only [List.mem_map, List.mem_filter]
  constructor
  · rintro ⟨a, ⟨ha, hp⟩, rfl⟩
    exact ⟨a, ha, hp, rfl⟩
  · rintro ⟨a, ha, hp, rfl⟩
    exact ⟨a, ⟨ha, hp⟩, rfl⟩

/-- Unfolding `check_and_award_achievements` at an existing user. -/
theorem check_award_eq (store : Store) (uid : String) (user : UserProfile)
    (h : store.users.find? (fun u => u.id == uid) = some user) :
    check_and_award_achievements store uid =
      (newlyEarned store uid user,
       { store with
          user_achievements := store.user_achievements ++ newlyEarned store uid user }) := by
  unfold check_and_award_achievements
  rw [h]

/-! ## C7 -/

/-- C7: if the given user id has no user record, `check_and_award_achievements`
returns an empty list and leaves the store unchanged (no writes). -/
theorem evaluate_missing_user_no_award_no_write (store : Store) (uid : String)
    (h : store.users.find? (fun u => u.id == uid) = none) :
    check_and_award_achievements store uid = ([], store) := by
  unfold check_and_award_achievements
  rw [h]

/-- Store with no records at all. -/
def emptyStore : Store :=
  { users := [], walks := [], friendships := [], walk_invitations := [],
    user_achievements := [] }

/-- Witness for C7: evaluating a user id against the empty store returns
no achievements and performs no writes. -/
theorem evaluate_missing_user_no_award_no_write_witness :
    check_and_award_achievements emptyStore "ghost" = ([], emptyStore) :=
  evaluate_missing_user_no_award_no_write emptyStore "ghost" rfl

/-! ## C2 -/

/-- C2: immediately re-running the award engine on the store produced by a
first run awards nothing the second time. -/
theorem evaluate_idempotent_second_call_empty (store : Store) (uid : String) :
    (check_and_award_achievements (check_and_award_achievements store uid).2 uid).1 = [] := by
  cases h : store.users.find? (fun u => u.id == uid) with
  | none =>
      rw [evaluate_missing_user_no_award_no_write store uid h,
        evaluate_missing_user_no_award_no_write store uid h]
  | some user =>
      rw [check_award_eq store uid user h]
      rw [check_award_eq { store with
            user_achievements := store.user_achievements ++ newlyEarned store uid user }
          uid user h]
      rw [List.eq_nil_iff_forall_not_mem]
      intro r hr
      obtain ⟨a, ha, hpred, rfl⟩ := (mem_newlyEarned _ uid user r).mp hr
      unfold awardPred at hpred
      rw [earnedIds_append, newlyEarned_filter_ids,
        computeStats_update_ua] at hpred
      rw [Bool.and_eq_true] at hpred
      obtain ⟨hnc, hc⟩ := hpred
      rw [Bool.not_eq_true'] at hnc
      simp at hnc
      exact hnc.2 a ha (by unfold awardPred; simp [hc, hnc.1]) rfl

/-! ## C8 -/

/-- C8: when the achievement step raises (modelled by an award function
that returns an error), `create_walk` still returns the walk, the walk
record is persisted, the profile coin/distance increments are kept, and
nothing is rolled back; the failure is not propagated. -/
theorem create_walk_award_failure_swallowed (store : Store) (w : WalkCreate) (e : String) :
    create_walk store w (fun _ _ => .error e) =
      ({ walk := mkWalkRec w, new_achievements := none },
       { store with
          walks := store.walks ++ [mkWalkRec w],
          users := updateUserInc store.users w.user_id
            (calculate_coins w.distance_km) w.distance_km }) ∧
    mkWalkRec w ∈ (create_walk store w (fun _ _ => .error e)).2.walks := by
  refine ⟨rfl, ?_⟩
  show mkWalkRec w ∈ store.walks ++ [mkWalkRec w]
  exact List.mem_append_right _ (List.mem_singleton.mpr rfl)

/-! ## C1 -/

/-- The 19 catalog ids are pairwise distinct. -/
theorem achievements_ids_nodup : (ACHIEVEMENTS.map (fun a => a.id)).Nodup := by
  decide

/-- C1: for an existing user and a catalog definition not yet earned, the
award engine creates a record for that definition exactly when every
`(metric, threshold)` criteria pair satisfies
`threshold ≤ snapshot.get(metric, 0)` (AND semantics, `≥` comparison,
missing metrics defaulting to `0`). -/
theorem award_iff_all_criteria_satisfied (store : Store) (uid : String)
    (user : UserProfile)
    (h : store.users.find? (fun u => u.id == uid) = some user)
    (d : AchievementDef) (hd : d ∈ ACHIEVEMENTS)
    (hne : (earnedIds store uid).contains d.id = false) :
    ((check_and_award_achievements store uid).1.any
        (fun r => r.achievement_id == d.id)) = true ↔
      ∀ p ∈ d.criteria, p.2 ≤ statsGet (computeStats store uid user) p.1 := by
  rw [check_award_eq store uid user h]
  show ((newlyEarned store uid user).any (fun r => r.achievement_id == d.id)) = true ↔ _
  rw [List.any_eq_true]
  constructor
  · rintro ⟨r, hr, hbeq⟩
    obtain ⟨a, ha, hpred, rfl⟩ := (mem_newlyEarned store uid user r).mp hr
    have hid : a.id = d.id := by simpa [mkUserAchievement] using hbeq
    have had : a = d := List.inj_on_of_nodup_map achievements_ids_nodup ha hd hid
    subst had
    unfold awardPred at hpred
    rw [Bool.and_eq_true] at hpred
    have hall := hpred.2
    unfold criteriaMet at hall
    rw [List.all_eq_true] at hall
    intro p hp
    exact of_decide_eq_true (hall p hp)
  · intro hall
    refine ⟨mkUserAchievement uid d, ?_, by simp [mkUserAchievement]⟩
    refine (mem_newlyEarned store uid user _).mpr ⟨d, hd, ?_, rfl⟩
    unfold awardPred criteriaMet
    rw [Bool.and_eq_true]
    refine ⟨by rw [hne]; rfl, ?_⟩
    rw [List.all_eq_true]
    intro p hp
    exact decide_eq_true (hall p hp)

/-- A user whose profile already records 12 km and who has completed one
12 km walk in Regensburg (the spec's worked example, §8). -/
def exampleUser : UserProfile := { id := "u1", walk_coins := 24, total_distance_km := 12 }

/-- Store for the worked example: one user, one walk, nothing else. -/
def exampleStore : Store :=
  { users := [exampleUser],
    walks := [{ user_id := "u1", route_name := "r", distance_km := 12,
                duration_minutes := 30, coins_earned := 24, city := "regensburg" }],
    friendships := [], walk_invitations := [], user_achievements := [] }

/-- Witness for C1 at the worked example and the `first_steps` definition. -/
theorem award_iff_all_criteria_satisfied_witness :
    ((check_and_award_achievements exampleStore "u1").1.any
        (fun r => r.achievement_id == firstStepsDef.id)) = true ↔
      ∀ p ∈ firstStepsDef.criteria,
        p.2 ≤ statsGet (computeStats exampleStore "u1" exampleUser) p.1 :=
  award_iff_all_criteria_satisfied exampleStore "u1" exampleUser rfl
    firstStepsDef (by decide) rfl

/-! ## C3 -/

/-- The invariant of §3: at most one `UserAchievement` per
`(user_id, achievement_id)` pair. -/
def UniquePairs (store : Store) : Prop :=
  (store.user_achievements.map (fun ua => (ua.user_id, ua.achievement_id))).Nodup

/-- An award pass never re-awards a pair that is already stored. -/
theorem newlyEarned_fresh (store : Store) (uid : String) (user : UserProfile) :
    ∀ rec ∈ store.user_achievements, rec.user_id = uid →
      ∀ r ∈ newlyEarned store uid user, r.achievement_id ≠ rec.achievement_id := by
  intro rec hrec hu r hr heq
  obtain ⟨a, ha, hpred, rfl⟩ := (mem_newlyEarned store uid user r).mp hr
  unfold awardPred at hpred
  rw [Bool.and_eq_true] at hpred
  have hnc := hpred.1
  rw [Bool.not_eq_true'] at hnc
  have hmem : a.id ∈ earnedIds store uid := by
    unfold earnedIds
    refine List.mem_map.mpr ⟨rec, List.mem_filter.mpr ⟨hrec, ?_⟩, ?_⟩
    · exact beq_iff_eq.mpr hu
    · exact heq.symm
  simp [hmem] at hnc

/-- C3: the uniqueness invariant for `(user_id, achievement_id)` pairs is
preserved by every call to the award engine, and once a record exists for
a pair, no call for that user creates another record with the same
achievement id. -/
theorem evaluate_preserves_unique_pairs (store : Store) (uid : String) :
    (UniquePairs store → UniquePairs (check_and_award_achievements store uid).2) ∧
    (∀ rec ∈ store.user_achievements, rec.user_id = uid →
      ∀ r ∈ (check_and_award_achievements store uid).1,
        r.achievement_id ≠ rec.achievement_id) := by
  cases h : store.users.find? (fun u => u.id == uid) with
  | none =>
      rw [evaluate_missing_user_no_award_no_write store uid h]
      exact ⟨fun hu => hu, fun rec _ _ r hr => absurd hr (List.not_mem_nil r)⟩
  | some user =>
      rw [check_award_eq store uid user h]
      refine ⟨fun hu => ?_, newlyEarned_fresh store uid user⟩
      unfold UniquePairs at hu ⊢
      rw [List.map_append, List.nodup_append]
      refine ⟨hu, ?_, ?_⟩
      · -- the new pairs are pairwise distinct: catalog ids are nodup
        unfold newlyEarned
        rw [List.map_map]
        have hsub : ((ACHIEVEMENTS.filter (awardPred store uid user)).map
            (fun a => a.id)).Nodup :=
          ((List.filter_sublist ACHIEVEMENTS).map (fun a => a.id)).nodup
            achievements_ids_nodup
        have : ((fun ua => (ua.user_id, ua.achievement_id)) ∘ mkUserAchievement uid) =
            (fun a : AchievementDef => ((uid, a.id) : String × String)) := rfl
        rw [this]
        have hinj : Function.Injective (fun i : String => ((uid, i) : String × String)) :=
          fun i j hij => congrArg Prod.snd hij
        have : (fun a : AchievementDef => ((uid, a.id) : String × String)) =
            (fun i : String => ((uid, i) : String × String)) ∘ (fun a => a.id) := rfl
        rw [this, ← List.map_map]
        exact hsub.map hinj
      · -- the new pairs are disjoint from the stored ones
        intro p hp1 hp2
        obtain ⟨rec, hrec, rfl⟩ := List.mem_map.mp hp1
        obtain ⟨r, hr, hpr⟩ := List.mem_map.mp hp2
        have hu1 : rec.user_id = r.user_id := (congrArg Prod.fst hpr).symm
        have ha1 : rec.achievement_id = r.achievement_id := (congrArg Prod.snd hpr).symm
        obtain ⟨a, ha, hpred, rfl⟩ := (mem_newlyEarned store uid user r).mp hr
        exact newlyEarned_fresh store uid user rec hrec hu1 _ hr ha1.symm

/-- The worked-example store after `first_steps` has been recorded. -/
def earnedStore : Store :=
  { exampleStore with user_achievements := [mkUserAchievement "u1" firstStepsDef] }

/-- Witness for C3 at a store that already holds a `first_steps` record. -/
theorem evaluate_preserves_unique_pairs_witness :
    UniquePairs (check_and_award_achievements earnedStore "u1").2 ∧
    ∀ r ∈ (check_and_award_achievements earnedStore "u1").1,
      r.achievement_id ≠ (mkUserAchievement "u1" firstStepsDef).achievement_id :=
  ⟨(evaluate_preserves_unique_pairs earnedStore "u1").1 (by unfold UniquePairs; decide),
   (evaluate_preserves_unique_pairs earnedStore "u1").2
     (mkUserAchievement "u1" firstStepsDef) (by decide) rfl⟩

/-! ## C4 -/

/-- Elements are bounded by the `foldr max 0` of their list. -/
theorem le_foldr_max {l : List ℕ} {x : ℕ} (hx : x ∈ l) : x ≤ l.foldr max 0 := by
  induction l with
  | nil => cases hx
  | cons a t ih =>
      simp only [List.foldr_cons]
      rcases List.mem_cons.mp hx with rfl | hm
      · exact le_max_left _ _
      · exact le_trans (ih hm) (le_max_right _ _)

/-- `foldr max 0` is either `0` or attained by some element. -/
theorem foldr_max_mem (l : List ℕ) : l.foldr max 0 = 0 ∨ l.foldr max 0 ∈ l := by
  induction l with
  | nil => exact Or.inl rfl
  | cons a t ih =>
      simp only [List.foldr_cons]
      rcases le_total a (t.foldr max 0) with hle | hge
      · rw [max_eq_right hle]
        rcases ih with h0 | hm
        · exact Or.inl h0
        · exact Or.inr (List.mem_cons_of_mem _ hm)
      · rw [max_eq_left hge]
        exact Or.inr (List.mem_cons_self _ _)

/-- The multiplicity of a city among the user's walks, as counted by the
`city_counts` dict of the source (lines 557-560). -/
theorem count_city_eq_countP (store : Store) (uid : String) (c : String) :
    ((userWalks store uid).map (fun w => w.city)).count c =
      (userWalks store uid).countP (fun w => w.city == c) := by
  rw [List.count_eq_countP, List.countP_map]
  rfl

/-- C4: the snapshot computed by both engine entry points has the field
values the specification describes: walk count, distinct-city count,
max-per-city walk count (with its three defining properties), friendship
count over either participant slot, sent-invitation count, the profile's
stored distance and coins, and hard zeros for the three untracked
metrics. -/
theorem snapshot_fields_correct (store : Store) (uid : String) (user : UserProfile)
    (h : store.users.find? (fun u => u.id == uid) = some user) :
    statsGet (computeStats store uid user) "walks_completed" =
        ((store.walks.countP (fun w => w.user_id == uid) : ℕ) : ℚ) ∧
    statsGet (computeStats store uid user) "cities_visited" =
        ((((userWalks store uid).map (fun w => w.city)).dedup.length : ℕ) : ℚ) ∧
    (∀ c : String,
      (((userWalks store uid).countP (fun w => w.city == c) : ℕ) : ℚ) ≤
        statsGet (computeStats store uid user) "walks_in_single_city") ∧
    (userWalks store uid = [] →
      statsGet (computeStats store uid user) "walks_in_single_city" = 0) ∧
    (userWalks store uid ≠ [] → ∃ c : String,
      statsGet (computeStats store uid user) "walks_in_single_city" =
        (((userWalks store uid).countP (fun w => w.city == c) : ℕ) : ℚ)) ∧
    statsGet (computeStats store uid user) "friends_count" =
        ((store.friendships.countP
            (fun f => f.user1_id == uid || f.user2_id == uid) : ℕ) : ℚ) ∧
    statsGet (computeStats store uid user) "walk_invitations_sent" =
        ((store.walk_invitations.countP (fun i => i.sender_id == uid) : ℕ) : ℚ) ∧
    statsGet (computeStats store uid user) "total_distance_km" =
        user.total_distance_km ∧
    statsGet (computeStats store uid user) "total_coins_earned" =
        ((user.walk_coins : ℤ) : ℚ) ∧
    statsGet (computeStats store uid user) "businesses_visited" = 0 ∧
    statsGet (computeStats store uid user) "offers_redeemed" = 0 ∧
    statsGet (computeStats store uid user) "consecutive_days" = 0 := by
  refine ⟨?_, rfl, ?_, ?_, ?_, ?_, ?_, rfl, rfl, rfl, rfl, rfl⟩
  · show (((userWalks store uid).length : ℕ) : ℚ) = _
    rw [List.countP_eq_length_filter]
    rfl
  · -- upper bound
    intro c
    show _ ≤ (((((userWalks store uid).map (fun w => w.city)).dedup.map
        (fun c => ((userWalks store uid).map (fun w => w.city)).count c)).foldr max 0 : ℕ) : ℚ)
    rw [Nat.cast_le]
    by_cases hc : c ∈ (userWalks store uid).map (fun w => w.city)
    · rw [← count_city_eq_countP]
      exact le_foldr_max (List.mem_map.mpr ⟨c, List.mem_dedup.mpr hc, rfl⟩)
    · rw [← count_city_eq_countP, List.count_eq_zero.mpr hc]
      exact Nat.zero_le _
  · intro hw
    show (((((userWalks store uid).map (fun w => w.city)).dedup.map
        (fun c => ((userWalks store uid).map (fun w => w.city)).count c)).foldr max 0 : ℕ) : ℚ) = 0
    rw [hw]
    rfl
  · intro hw
    obtain ⟨w, hwmem⟩ := List.exists_mem_of_ne_nil _ hw
    have hc0 : w.city ∈ (userWalks store uid).map (fun x => x.city) :=
      List.mem_map.mpr ⟨w, hwmem, rfl⟩
    rcases foldr_max_mem (((userWalks store uid).map (fun x => x.city)).dedup.map
        (fun c => ((userWalks store uid).map (fun x => x.city)).count c)) with h0 | hm
    · -- impossible: the head city is counted at least once
      have h1 : 0 < ((userWalks store uid).map (fun x => x.city)).count w.city :=
        List.count_pos_iff.mpr hc0
      have h2 : ((userWalks store uid).map (fun x => x.city)).count w.city ≤
          (((userWalks store uid).map (fun x => x.city)).dedup.map
            (fun c => ((userWalks store uid).map (fun x => x.city)).count c)).foldr max 0 :=
        le_foldr_max (List.mem_map.mpr ⟨w.city, List.mem_dedup.mpr hc0, rfl⟩)
      omega
    · obtain ⟨c, _, hcount⟩ := List.mem_map.mp hm
      refine ⟨c, ?_⟩
      show ((_ : ℕ) : ℚ) = _
      rw [← hcount, count_city_eq_countP]
  · show (((userFriendships store uid).length : ℕ) : ℚ) = _
    rw [List.countP_eq_length_filter]
    rfl
  · show (((userInvitationsSent store uid).length : ℕ) : ℚ) = _
    rw [List.countP_eq_length_filter]
    rfl

/-- A user with all-zero profile counters and no activity. -/
def zeroUser : UserProfile := { id := "u0", walk_coins := 0, total_distance_km := 0 }

/-- Store holding only `zeroUser`, with every collection empty. -/
def zeroStore : Store :=
  { users := [zeroUser], walks := [], friendships := [], walk_invitations := [],
    user_achievements := [] }

/-- Witness for C4 at the worked example (nonempty walks) and at the
zero-activity store (empty walks). -/
theorem snapshot_fields_correct_witness :
    statsGet (computeStats exampleStore "u1" exampleUser) "walks_completed" =
        ((exampleStore.walks.countP (fun w => w.user_id == "u1") : ℕ) : ℚ) ∧
    (∃ c : String,
      statsGet (computeStats exampleStore "u1" exampleUser) "walks_in_single_city" =
        (((userWalks exampleStore "u1").countP (fun w => w.city == c) : ℕ) : ℚ)) ∧
    statsGet (computeStats zeroStore "u0" zeroUser) "walks_in_single_city" = 0 :=
  ⟨(snapshot_fields_correct exampleStore "u1" exampleUser rfl).1,
   (snapshot_fields_correct exampleStore "u1" exampleUser rfl).2.2.2.2.1 (by decide),
   (snapshot_fields_correct zeroStore "u0" zeroUser rfl).2.2.2.1 rfl⟩

/-! ## C5 -/

/-- `progressFor` reports the id of its catalog entry in both branches. -/
theorem progressFor_id (stats : List (String × ℚ)) (ids : List String)
    (a : AchievementDef) : (progressFor stats ids a).achievement_id = a.id := by
  unfold progressFor
  split
  · rfl
  · rfl

/-- Every catalog entry has a strictly positive (single) threshold. -/
theorem catalog_thresholds_pos :
    ∀ d ∈ ACHIEVEMENTS, 0 < (d.criteria.headD ("", 0)).2 := by
  decide

/-- C5: for an existing user and a not-yet-earned catalog definition, the
progress record exposes the criterion threshold as `target_value`, the
snapshot value of the criterion metric (0 when missing) as
`current_value`, and `progress_percentage = min(100, 100·current/target)`
(so the percentage is clamped at 100); moreover, for any definition whose
first-criterion threshold is `0`, `progressFor` reports `0` rather than
failing on the division. -/
theorem progress_percentage_formula (store : Store) (uid : String)
    (user : UserProfile)
    (h : store.users.find? (fun u => u.id == uid) = some user)
    (d : AchievementDef) (hd : d ∈ ACHIEVEMENTS)
    (hne : (earnedIds store uid).contains d.id = false) :
    (∃ r ∈ get_achievement_progress store uid,
      r.achievement_id = d.id ∧
      r.target_value = (d.criteria.headD ("", 0)).2 ∧
      r.current_value = statsGet (computeStats store uid user) (d.criteria.headD ("", 0)).1 ∧
      r.progress_percentage = min 100 (100 * r.current_value / r.target_value)) ∧
    (∀ stats : List (String × ℚ), ∀ ids : List String, ∀ e : AchievementDef,
      ids.contains e.id = false → (e.criteria.headD ("", 0)).2 = 0 →
        (progressFor stats ids e).progress_percentage = 0) := by
  constructor
  · have hpos := catalog_thresholds_pos d hd
    refine ⟨progressFor (computeStats store uid user) (earnedIds store uid) d, ?_, ?_, ?_, ?_, ?_⟩
    · unfold get_achievement_progress
      rw [h]
      exact List.mem_map.mpr ⟨d, hd, rfl⟩
    · exact progressFor_id _ _ d
    · unfold progressFor
      rw [hne, if_neg Bool.false_ne_true]
    · unfold progressFor
      rw [hne, if_neg Bool.false_ne_true]
    · unfold progressFor
      rw [hne, if_neg Bool.false_ne_true]
      dsimp only
      rw [if_pos hpos, min_comm]
      congr 1
      ring
  · intro stats ids e h1 h2
    unfold progressFor
    rw [h1, if_neg Bool.false_ne_true]
    dsimp only
    rw [h2, if_neg (lt_irrefl 0)]

/-- A hypothetical definition with a zero threshold (not in the catalog),
used to exhibit the division-by-zero guard. -/
def zeroThresholdDemoDef : AchievementDef :=
  { id := "zero_demo", name := "Zero", description := "Zero-threshold demo",
    category := "distance", tier := "bronze", icon := "x",
    criteria := [("walks_completed", 0)], points := 0 }

/-- Witness for C5: the worked example against `distance_champion`, plus
the zero-threshold guard on the demo definition. -/
theorem progress_percentage_formula_witness :
    (∃ r ∈ get_achievement_progress exampleStore "u1",
      r.achievement_id = distanceChampionDef.id ∧
      r.target_value = (distanceChampionDef.criteria.headD ("", 0)).2 ∧
      r.current_value = statsGet (computeStats exampleStore "u1" exampleUser)
        (distanceChampionDef.criteria.headD ("", 0)).1 ∧
      r.progress_percentage = min 100 (100 * r.current_value / r.target_value)) ∧
    (progressFor [] [] zeroThresholdDemoDef).progress_percentage = 0 :=
  ⟨(progress_percentage_formula exampleStore "u1" exampleUser rfl
      distanceChampionDef (by decide) rfl).1,
   (progress_percentage_formula exampleStore "u1" exampleUser rfl
      distanceChampionDef (by decide) rfl).2 [] [] zeroThresholdDemoDef rfl rfl⟩

/-! ## C6 -/

/-- Counterexample for C6 as stated: for a user identifier with no user
record, `get_achievement_progress` returns an empty list, not one record
per catalog definition. -/
theorem progress_missing_user_not_one_per_definition :
    (get_achievement_progress emptyStore "ghost").length ≠ ACHIEVEMENTS.length := by
  decide

/-- C6 (amended to existing users): for every existing user, the progress
report carries exactly one record per catalog definition, in catalog
order (so its ids are the catalog ids in order), and every record for an
already-earned definition reports 100% with `is_completed = true`. The
function itself performs no store writes (it returns only the list). -/
theorem progress_catalog_order_for_existing_user (store : Store) (uid : String)
    (user : UserProfile)
    (h : store.users.find? (fun u => u.id == uid) = some user) :
    ((get_achievement_progress store uid).map (fun r => r.achievement_id) =
      ACHIEVEMENTS.map (fun a => a.id)) ∧
    (∀ r ∈ get_achievement_progress store uid,
      (earnedIds store uid).contains r.achievement_id = true →
        r.progress_percentage = 100 ∧ r.is_completed = true) := by
  unfold get_achievement_progress
  rw [h]
  constructor
  · rw [List.map_map]
    congr 1
    funext a
    exact progressFor_id _ _ a
  · intro r hr hcont
    obtain ⟨a, _, rfl⟩ := List.mem_map.mp hr
    rw [progressFor_id] at hcont
    unfold progressFor
    rw [if_pos hcont]
    exact ⟨rfl, rfl⟩

/-- Witness for C6 (amended) at the worked example. -/
theorem progress_catalog_order_for_existing_user_witness :
    ((get_achievement_progress exampleStore "u1").map (fun r => r.achievement_id) =
      ACHIEVEMENTS.map (fun a => a.id)) ∧
    (∀ r ∈ get_achievement_progress exampleStore "u1",
      (earnedIds exampleStore "u1").contains r.achievement_id = true →
        r.progress_percentage = 100 ∧ r.is_completed = true) :=
  progress_catalog_order_for_existing_user exampleStore "u1" exampleUser rfl

/-! ## C10 -/

/-- C10: for an existing user, the progress record of an already-earned
definition reports `target_value = 0` and `current_value = 0` alongside
`progress_percentage = 100` and `is_completed = true`, regardless of the
actual threshold or the user's metric value. -/
theorem completed_progress_record_zeroed (store : Store) (uid : String)
    (user : UserProfile)
    (h : store.users.find? (fun u => u.id == uid) = some user)
    (d : AchievementDef) (hd : d ∈ ACHIEVEMENTS)
    (he : (earnedIds store uid).contains d.id = true) :
    ∃ r ∈ get_achievement_progress store uid,
      r.achievement_id = d.id ∧ r.target_value = 0 ∧ r.current_value = 0 ∧
      r.progress_percentage = 100 ∧ r.is_completed = true := by
  refine ⟨progressFor (computeStats store uid user) (earnedIds store uid) d, ?_,
    progressFor_id _ _ d, ?_, ?_, ?_, ?_⟩
  · unfold get_achievement_progress
    rw [h]
    exact List.mem_map.mpr ⟨d, hd, rfl⟩
  all_goals
    unfold progressFor
    rw [if_pos he]

/-- Witness for C10: in `earnedStore` the `first_steps` record is earned,
and its progress entry is zeroed out but 100% complete. -/
theorem completed_progress_record_zeroed_witness :
    ∃ r ∈ get_achievement_progress earnedStore "u1",
      r.achievement_id = firstStepsDef.id ∧ r.target_value = 0 ∧
      r.current_value = 0 ∧ r.progress_percentage = 100 ∧ r.is_completed = true :=
  completed_progress_record_zeroed earnedStore "u1" exampleUser rfl
    firstStepsDef (by decide) rfl

/-! ## C9 -/

/-- A store whose only user has zero walks but one friendship. -/
def friendOnlyStore : Store :=
  { users := [{ id := "u2", walk_coins := 0, total_distance_km := 0 }],
    walks := [],
    friendships := [{ user1_id := "u2", user2_id := "v2" }],
    walk_invitations := [], user_achievements := [] }

/-- Counterexample for C9 as stated: a user with zero walk records but one
friendship earns `friendship_builder`, so `evaluate` does not return an
empty list for every zero-walk user. -/
theorem zero_walk_user_can_still_earn :
    userWalks friendOnlyStore "u2" = [] ∧
    ((check_and_award_achievements friendOnlyStore "u2").1.map
      (fun r => r.achievement_id)) = ["friendship_builder"] := by
  decide

/-- The all-zero snapshot. -/
def zeroSnapshot : List (String × ℚ) :=
  [("walks_completed", 0), ("total_distance_km", 0), ("cities_visited", 0),
   ("friends_count", 0), ("walk_invitations_sent", 0), ("total_coins_earned", 0),
   ("businesses_visited", 0), ("offers_redeemed", 0), ("consecutive_days", 0),
   ("walks_in_single_city", 0)]

/-- Looking up any key in a snapshot whose values are all zero gives zero
(also for keys that are absent, via the `get` default). -/
theorem statsGet_all_zero {stats : List (String × ℚ)}
    (h0 : ∀ p ∈ stats, p.2 = 0) (k : String) : statsGet stats k = 0 := by
  unfold statsGet
  cases hf : stats.find? (fun p => p.1 == k) with
  | none => rfl
  | some p =>
      have hp : p ∈ stats := List.mem_of_find?_eq_some hf
      simp [h0 p hp]

/-- A user with no walks, no friendships, no sent invitations and an
all-zero profile has the all-zero snapshot. -/
theorem computeStats_zero (store : Store) (uid : String) (user : UserProfile)
    (hw : userWalks store uid = [])
    (hf : userFriendships store uid = [])
    (hi : userInvitationsSent store uid = [])
    (hc : user.walk_coins = 0)
    (hd : user.total_distance_km = 0) :
    computeStats store uid user = zeroSnapshot := by
  unfold computeStats zeroSnapshot
  rw [hw, hf, hi, hc, hd]
  norm_num

/-- Every catalog entry demands a strictly positive value on at least one
criteria pair. -/
theorem catalog_has_positive_criterion :
    ∀ a ∈ ACHIEVEMENTS, a.criteria.any (fun p => decide (0 < p.2)) = true := by
  decide

/-- C9 (amended to a fully zero snapshot): for an existing user with zero
walks, no friendships, no sent invitations and zero profile coins and
distance, `evaluate` awards nothing, and every not-yet-earned progress
record reports 0%. -/
theorem zero_activity_user_earns_nothing (store : Store) (uid : String)
    (user : UserProfile)
    (h : store.users.find? (fun u => u.id == uid) = some user)
    (hw : userWalks store uid = [])
    (hf : userFriendships store uid = [])
    (hi : userInvitationsSent store uid = [])
    (hc : user.walk_coins = 0)
    (hd : user.total_distance_km = 0) :
    (check_and_award_achievements store uid).1 = [] ∧
    (∀ r ∈ get_achievement_progress store uid,
      (earnedIds store uid).contains r.achievement_id = false →
        r.progress_percentage = 0) := by
  have hstats : computeStats store uid user = zeroSnapshot :=
    computeStats_zero store uid user hw hf hi hc hd
  have hz : ∀ k, statsGet (computeStats store uid user) k = 0 := by
    intro k
    rw [hstats]
    exact statsGet_all_zero (by decide) k
  constructor
  · rw [check_award_eq store uid user h]
    show newlyEarned store uid user = []
    rw [List.eq_nil_iff_forall_not_mem]
    intro r hr
    obtain ⟨a, ha, hpred, rfl⟩ := (mem_newlyEarned store uid user r).mp hr
    unfold awardPred at hpred
    rw [Bool.and_eq_true] at hpred
    have hall := hpred.2
    unfold criteriaMet at hall
    rw [List.all_eq_true] at hall
    obtain ⟨p, hp, hpos⟩ := List.any_eq_true.mp (catalog_has_positive_criterion a ha)
    have hle : p.2 ≤ statsGet (computeStats store uid user) p.1 :=
      of_decide_eq_true (hall p hp)
    rw [hz p.1] at hle
    exact absurd (lt_of_lt_of_le (of_decide_eq_true hpos) hle) (lt_irrefl 0)
  · intro r hr hne
    unfold get_achievement_progress at hr
    rw [h] at hr
    obtain ⟨a, _, rfl⟩ := List.mem_map.mp hr
    rw [progressFor_id] at hne
    unfold progressFor
    rw [hne, if_neg Bool.false_ne_true]
    dsimp only
    rw [hz]
    split
    · norm_num
    · rfl

/-- Witness for C9 (amended): the zero-activity store awards nothing. -/
theorem zero_activity_user_earns_nothing_witness :
    (check_and_award_achievements zeroStore "u0").1 = [] :=
  (zero_activity_user_earns_nothing zeroStore "u0" zeroUser
    rfl rfl rfl rfl rfl rfl).1
